import Mathlib

/-!
Shallow embedding of the go-acme certificate lifecycle library.

External collaborators (crypto/tls key-pair parsing, crypto/x509 DER
parsing, the lego ACME client, the storage backend) are modelled as
explicit function parameters or oracle arguments: the embedded functions
mirror the control flow of the Go source over those oracles.  Byte
slices are `List Nat`, `time.Time` and `time.Duration` are `Int`
nanoseconds (Go's `time.Duration` unit), and Go's `nil` pointers become
`Option`.
-/

namespace GoACME

/-- Domain holds a domain name with SANs (types/types.go). -/
structure Domain where
  Main : String
  SANs : List String

deriving instance DecidableEq for Domain

/-- Certificate is used to store certificate info (types/types.go). -/
structure Certificate where
  Domain : String
  CertURL : String
  CertStableURL : String
  PrivateKey : List Nat
  Cert : List Nat

deriving instance DecidableEq for Certificate

/-- The part of a parsed x509 certificate that the library inspects:
its `NotAfter` instant, in nanoseconds. -/
structure X509Cert where
  NotAfter : Int

deriving instance DecidableEq for X509Cert

/-- The part of Go's `tls.Certificate` the library uses: the
`Certificate` field, a chain of DER-encoded segments. -/
structure TLSCertificate where
  Certificate : List (List Nat)

deriving instance DecidableEq for TLSCertificate

/-- DomainCertificate contains a certificate for a domain and SANs
(types/types.go).  `TLSCert` is a nilable pointer in Go, hence `Option`. -/
structure DomainCertificate where
  Certificate : GoACME.Certificate
  Domain : GoACME.Domain
  TLSCert : Option TLSCertificate

deriving instance DecidableEq for DomainCertificate

/-- lego's `acme.CertificateResource` as used by `renewCertificate`:
same fields as `Certificate`, with the raw chain under the name
`Certificate` instead of `Cert`. -/
structure CertificateResource where
  Domain : String
  CertURL : String
  CertStableURL : String
  PrivateKey : List Nat
  Certificate : List Nat

deriving instance DecidableEq for CertificateResource

/-- Account as persisted by the backends (types/types.go), restricted to
the fields the storage claims need. -/
structure Account where
  Email : String
  PrivateKey : List Nat
  DomainsCertificate : DomainCertificate

deriving instance DecidableEq for Account

/-- `(dc *DomainCertificate) tlsCert()` — delegates to the external
`tls.X509KeyPair(dc.Certificate.Cert, dc.Certificate.PrivateKey)`,
supplied here as the parameter `kp`. -/
def tlsCert (kp : List Nat → List Nat → Except String TLSCertificate)
    (dc : DomainCertificate) : Except String TLSCertificate :=
  kp dc.Certificate.Cert dc.Certificate.PrivateKey

/-- `(dc *DomainCertificate) Init()` — re-derives `TLSCert` from the raw
bytes; on a parse error it returns the error and leaves `TLSCert`
untouched.  Returns the (possibly updated) receiver and the error. -/
def Init (kp : List Nat → List Nat → Except String TLSCertificate)
    (dc : DomainCertificate) : DomainCertificate × Option String :=
  match tlsCert kp dc with
  | Except.error e => (dc, some e)
  | Except.ok c => ({ dc with TLSCert := some c }, none)

/-- `(dc *DomainCertificate) RenewCertificate(acmeCert, domain)` — if the
`domain` argument is DeepEqual to `dc.Domain`, assigns `dc.Certificate`
and re-initialises; otherwise errors without touching the receiver. -/
def RenewCertificate (kp : List Nat → List Nat → Except String TLSCertificate)
    (dc : DomainCertificate) (acmeCert : GoACME.Certificate)
    (domain : GoACME.Domain) : DomainCertificate × Option String :=
  if domain = dc.Domain then
    Init kp { dc with Certificate := acmeCert }
  else
    (dc, some ("Certificate to renew not found for domain " ++ domain.Main))

/-- `(dc *DomainCertificate) AddCertificate(acmeCert, domain)` — assigns
`dc.Domain` and `dc.Certificate`, then re-initialises `TLSCert`. -/
def AddCertificate (kp : List Nat → List Nat → Except String TLSCertificate)
    (dc : DomainCertificate) (acmeCert : GoACME.Certificate)
    (domain : GoACME.Domain) : DomainCertificate × Option String :=
  Init kp { dc with Domain := domain, Certificate := acmeCert }

/-- `24*7*time.Hour` in nanoseconds, the renewal window of `needsUpdate`. -/
def sevenDaysNs : Int := 24 * 7 * 3600 * 1000000000

/-- `needsUpdate(cert *tls.Certificate)` (acme.go) — parses every DER
segment of the chain with the external `x509.ParseCertificate`
(parameter `p`); returns true at the first segment that fails to parse
or whose `NotAfter` is strictly before `now + 7 days`. -/
def needsUpdate (p : List Nat → Option X509Cert) (now : Int)
    (cert : TLSCertificate) : Bool :=
  cert.Certificate.any fun c =>
    match p c with
    | none => true
    | some crt => decide (crt.NotAfter < now + sevenDaysNs)

/-- Result record of one `renewCertificate` run: the final
DomainCertificate state, how many authority (client renew) calls and how
many backend save calls were made, and the error returned. -/
structure RenewResult where
  dc : DomainCertificate
  authorityCalls : Nat
  saveCalls : Nat
  err : Option String

deriving instance DecidableEq for RenewResult

/-- Outcome of `renewCertificate`: either a normal return or the Go
runtime fault of ranging over a nil `*tls.Certificate`. -/
inductive RenewOutcome where
  | nilDeref
  | done (r : RenewResult)

deriving instance DecidableEq for RenewOutcome

/-- `(a *ACME) renewCertificate(client, account)` (acme.go) — when
`needsUpdate` holds of `dc.TLSCert`, builds a `CertificateResource` from
the stored certificate, calls the external client's renew (oracle
`clientRenew`), converts the result back, and replaces the certificate
via `RenewCertificate` passing `dc.Domain` itself as the domain
argument, then saves the account (oracle `save`, an `Option` error). -/
def renewCertificate (p : List Nat → Option X509Cert)
    (kp : List Nat → List Nat → Except String TLSCertificate)
    (now : Int)
    (clientRenew : CertificateResource → Except String CertificateResource)
    (save : Option String)
    (dc : DomainCertificate) : RenewOutcome :=
  match dc.TLSCert with
  | none => RenewOutcome.nilDeref
  | some tlsc =>
    if needsUpdate p now tlsc then
      match clientRenew { Domain := dc.Certificate.Domain,
                          CertURL := dc.Certificate.CertURL,
                          CertStableURL := dc.Certificate.CertStableURL,
                          PrivateKey := dc.Certificate.PrivateKey,
                          Certificate := dc.Certificate.Cert } with
      | Except.error e => RenewOutcome.done ⟨dc, 1, 0, some e⟩
      | Except.ok renewedCert =>
        let renewedACMECert : GoACME.Certificate :=
          { Domain := renewedCert.Domain,
            CertURL := renewedCert.CertURL,
            CertStableURL := renewedCert.CertStableURL,
            PrivateKey := renewedCert.PrivateKey,
            Cert := renewedCert.Certificate }
        match RenewCertificate kp dc renewedACMECert dc.Domain with
        | (dc2, some e) => RenewOutcome.done ⟨dc2, 1, 0, some e⟩
        | (dc2, none) =>
          match save with
          | some e => RenewOutcome.done ⟨dc2, 1, 1, some e⟩
          | none => RenewOutcome.done ⟨dc2, 1, 1, none⟩
    else RenewOutcome.done ⟨dc, 0, 0, none⟩

/-- `(a *ACME) retrieveCertificate(client, account)` (acme.go) — obtains
a certificate (oracle `getCert`, standing for `getDomainCertificate`),
attaches it with `AddCertificate`, then saves the account (oracle
`save`).  Returns the in-memory DomainCertificate state alongside the
function's result (the TLS certificate or the wrapped error). -/
def retrieveCertificate
    (kp : List Nat → List Nat → Except String TLSCertificate)
    (getCert : Except String GoACME.Certificate)
    (save : Option String)
    (domain : GoACME.Domain)
    (dc : DomainCertificate) :
    DomainCertificate × Except String (Option TLSCertificate) :=
  match getCert with
  | Except.error e =>
    (dc, Except.error ("Error getting ACME certificate for domain: " ++ e))
  | Except.ok certificate =>
    match AddCertificate kp dc certificate domain with
    | (dc2, some e) =>
      (dc2, Except.error ("Error adding ACME certificate for domain: " ++ e))
    | (dc2, none) =>
      match save with
      | some e =>
        (dc2, Except.error ("Error Saving ACME account: " ++ e))
      | none => (dc2, Except.ok dc2.TLSCert)

/-- Outcome of a Go function that may return normally, return an error,
or panic. -/
inductive FnOutcome (α : Type) where
  | ok (a : α)
  | err (e : String)
  | panics (msg : String)

deriving instance DecidableEq for FnOutcome

/-- The provider names recognised by `newDNSProvider`'s switch
(provider.go), in source order. -/
def dnsProviderNames : List String :=
  ["cloudflare", "digitalocean", "dnsimple", "dyn", "gandi", "gcloud",
   "manual", "namecheap", "route53", "rfc2136", "vultr"]

/-- `newDNSProvider(dns string)` (provider.go) — dispatches a recognised
name to the corresponding external lego factory (oracle `factory`,
which may itself error); the default branch of the switch executes
`panic("Unknown dns provider " + dns)`. -/
def newDNSProvider {α : Type} (factory : String → Except String α)
    (dns : String) : FnOutcome α :=
  if dns ∈ dnsProviderNames then
    match factory dns with
    | Except.ok pr => FnOutcome.ok pr
    | Except.error e => FnOutcome.err e
  else FnOutcome.panics ("Unknown dns provider " ++ dns)

/-- The opening validation of `(a *ACME) CreateConfig` (acme.go): when
`a.Domain` is nil or `a.Domain.Main` is empty it executes
`a.Logger.Panic("The main domain name must be provided")`, which panics
after logging; otherwise validation passes. -/
def createConfigDomainCheck (domain : Option GoACME.Domain) : FnOutcome Unit :=
  match domain with
  | none => FnOutcome.panics ("The main domain name must be provided")
  | some d =>
    if d.Main = "" then
      FnOutcome.panics ("The main domain name must be provided")
    else FnOutcome.ok ()

/-- The `tlsConfig.GetCertificate` closure installed by `CreateConfig`
(acme.go): errors on any server name other than `a.Domain.Main`,
otherwise returns `dc.TLSCert` (which is a nilable pointer). -/
def GetCertificate (main : String) (tlsCertNow : Option TLSCertificate)
    (serverName : String) : Except String (Option TLSCertificate) :=
  if serverName ≠ main then Except.error ("Unknown server name")
  else Except.ok tlsCertNow

/-- The validity fields of the x509 template built by
`generateDerCert(privateKey, expiration, domain)` (self tls cert file):
`NotBefore` is `time.Now()`; when the `expiration` argument is the zero
time it becomes `time.Now().Add(365)`, i.e. now plus the untyped
duration constant 365, which is 365 nanoseconds. -/
structure DerCertTemplate where
  NotBefore : Int
  NotAfter : Int
  CommonName : String
  DNSNames : List String

deriving instance DecidableEq for DerCertTemplate

/-- Builds the `x509.Certificate` template of `generateDerCert`,
restricted to the fields the spec discusses. -/
def generateDerCertTemplate (now : Int) (expiration : Int)
    (domain : String) : DerCertTemplate :=
  { NotBefore := now,
    NotAfter := if expiration = 0 then now + 365 else expiration,
    CommonName := "DEFAULT CERT",
    DNSNames := [domain] }

/-- One year of days in nanoseconds, for comparison with the 365 ns
offset actually used by `generateDerCert`. -/
def oneYearDaysNs : Int := 365 * 24 * 3600 * 1000000000

/-- Result of `os.Stat` on the storage file, as `LoadAccount` (fs.go)
distinguishes the cases: a not-exist error, another stat error, or
success with the file's size. -/
inductive StatResult where
  | notExist
  | statError (msg : String)
  | found (size : Nat)

deriving instance DecidableEq for StatResult

/-- `(s *storage) LoadAccount(domain)` of the fs backend (fs.go).  When
`os.Stat` errors or the file size is zero, the function returns
`nil, nil` if the error is not-exist, and otherwise `nil, err` — which
for an existing zero-size file means `err` is nil, so `nil, nil` again.
Otherwise it reads the file (oracle `readFile`) and unmarshals it
(oracle `unmarshal`). -/
def LoadAccount (stat : StatResult)
    (readFile : Except String (List Nat))
    (unmarshal : List Nat → Except String Account) :
    Except String (Option Account) :=
  match stat with
  | StatResult.notExist => Except.ok none
  | StatResult.statError e => Except.error e
  | StatResult.found size =>
    if size = 0 then Except.ok none
    else
      match readFile with
      | Except.error e => Except.error e
      | Except.ok file =>
        match unmarshal file with
        | Except.error e => Except.error ("Error loading account: " ++ e)
        | Except.ok account => Except.ok (some account)

/-- Sample stand-in for the external `tls.X509KeyPair`: fails on empty
input bytes, otherwise yields a one-segment chain holding the cert
bytes.  Used to instantiate the parser oracle on concrete inputs. -/
def sampleKeyPair (cert : List Nat) (key : List Nat) :
    Except String TLSCertificate :=
  if cert.isEmpty || key.isEmpty then
    Except.error ("tls: failed to find any PEM data in certificate input")
  else Except.ok ⟨[cert]⟩

/-- Sample stand-in for the external `x509.ParseCertificate`: an empty
segment fails to parse, a non-empty one parses with `NotAfter` given by
its first byte. -/
def sampleParse (seg : List Nat) : Option X509Cert :=
  match seg with
  | [] => none
  | n :: _ => some ⟨(n : Int)⟩

/-- A DomainCertificate whose `TLSCert` is consistent with its raw bytes
under `sampleKeyPair`: concrete input for witnesses and
counterexamples. -/
def dcGood : DomainCertificate :=
  { Certificate := { Domain := "example.com", CertURL := "",
                     CertStableURL := "", PrivateKey := [2], Cert := [1] },
    Domain := { Main := "example.com", SANs := [] },
    TLSCert := some ⟨[[1]]⟩ }

/-- A certificate whose raw bytes fail to parse under `sampleKeyPair`. -/
def certBad : GoACME.Certificate :=
  { Domain := "example.com", CertURL := "", CertStableURL := "",
    PrivateKey := [2], Cert := [] }

/-- A well-formed replacement certificate for the same domain. -/
def certNew : GoACME.Certificate :=
  { Domain := "example.com", CertURL := "", CertStableURL := "",
    PrivateKey := [6], Cert := [5] }

/-- A well-formed certificate whose recorded Domain string names a
different domain than `dcGood`. -/
def certOtherDomain : GoACME.Certificate :=
  { Domain := "evil.com", CertURL := "", CertStableURL := "",
    PrivateKey := [6], Cert := [5] }

/-- Behaviour of `Init` in both branches: on success the receiver gets
the parsed pair as `TLSCert`, on failure it is returned untouched. -/
theorem Init_cases (kp : List Nat → List Nat → Except String TLSCertificate)
    (dc : DomainCertificate) :
    ((Init kp dc).2 = none →
      ∃ t, kp dc.Certificate.Cert dc.Certificate.PrivateKey = Except.ok t ∧
        (Init kp dc).1 = { dc with TLSCert := some t }) ∧
    ((Init kp dc).2 ≠ none → (Init kp dc).1 = dc) := by
  unfold Init tlsCert
  cases h : kp dc.Certificate.Cert dc.Certificate.PrivateKey <;> simp [h]

/-- Claim C2: `needsUpdate` returns true iff the chain has a segment
that fails to parse or a parsed segment whose `NotAfter` is strictly
before now + 7 days, and returns false exactly when every segment
parses with `NotAfter` at least now + 7 days. -/
theorem needsUpdate_iff (p : List Nat → Option X509Cert) (now : Int)
    (cert : TLSCertificate) :
    (needsUpdate p now cert = true ↔
      ∃ c ∈ cert.Certificate, p c = none ∨
        ∃ crt, p c = some crt ∧ crt.NotAfter < now + sevenDaysNs) ∧
    (needsUpdate p now cert = false ↔
      ∀ c ∈ cert.Certificate, ∃ crt, p c = some crt ∧
        now + sevenDaysNs ≤ crt.NotAfter) := by
  constructor
  · unfold needsUpdate
    rw [List.any_eq_true]
    constructor
    · rintro ⟨c, hc, h⟩
      refine ⟨c, hc, ?_⟩
      cases hp : p c with
      | none => exact Or.inl rfl
      | some crt =>
        rw [hp] at h
        exact Or.inr ⟨crt, rfl, of_decide_eq_true h⟩
    · rintro ⟨c, hc, h⟩
      refine ⟨c, hc, ?_⟩
      rcases h with hnone | ⟨crt, hsome, hlt⟩
      · rw [hnone]
      · rw [hsome]
        exact decide_eq_true hlt
  · unfold needsUpdate
    rw [List.any_eq_false]
    constructor
    · intro h c hc
      have hcc := h c hc
      cases hp : p c with
      | none =>
        rw [hp] at hcc
        simp at hcc
      | some crt =>
        rw [hp] at hcc
        refine ⟨crt, rfl, ?_⟩
        simpa using hcc
    · intro h c hc
      rcases h c hc with ⟨crt, hsome, hge⟩
      rw [hsome]
      simpa using hge

/-- Witness for C2 at concrete inputs: a chain with an unparsable
segment needs renewal, the empty chain does not. -/
theorem needsUpdate_iff_witness :
    needsUpdate sampleParse 0 ⟨[[]]⟩ = true ∧
    needsUpdate sampleParse 0 ⟨[]⟩ = false := by
  constructor
  · exact (needsUpdate_iff sampleParse 0 ⟨[[]]⟩).1.mpr
      ⟨[], by simp, Or.inl rfl⟩
  · exact (needsUpdate_iff sampleParse 0 ⟨[]⟩).2.mpr (by simp)

/-- Claim C6: the resolver returns the active TLS certificate iff the
requested server name equals the primary domain; any other name yields
the unknown-server-name error and never a certificate. -/
theorem GetCertificate_main_iff (main : String) (c : Option TLSCertificate)
    (name : String) :
    (GetCertificate main c name = Except.ok c ↔ name = main) ∧
    (name ≠ main →
      GetCertificate main c name = Except.error ("Unknown server name") ∧
      ∀ c2, GetCertificate main c name ≠ Except.ok c2) := by
  by_cases h : name = main <;> simp [GetCertificate, h]

/-- Witness for C6 at concrete inputs. -/
theorem GetCertificate_main_iff_witness :
    GetCertificate ("example.com") (some ⟨[[1]]⟩) ("example.com") =
      Except.ok (some ⟨[[1]]⟩) ∧
    GetCertificate ("example.com") (some ⟨[[1]]⟩) ("other.com") =
      Except.error ("Unknown server name") := by
  constructor
  · exact (GetCertificate_main_iff ("example.com") (some ⟨[[1]]⟩)
      ("example.com")).1.mpr rfl
  · exact ((GetCertificate_main_iff ("example.com") (some ⟨[[1]]⟩)
      ("other.com")).2 (by decide)).1

/-- Claim C9: with a zero-time expiration argument, the generateDerCert
template sets `NotAfter` to now plus 365 duration units, i.e. 365
nanoseconds after `NotBefore` — far shorter than a calendar year. -/
theorem generateDerCert_zero_expiration (now : Int) (domain : String) :
    (generateDerCertTemplate now 0 domain).NotAfter = now + 365 ∧
    (generateDerCertTemplate now 0 domain).NotAfter -
      (generateDerCertTemplate now 0 domain).NotBefore = 365 ∧
    (365 : Int) < oneYearDaysNs := by
  refine ⟨rfl, ?_, by decide⟩
  simp [generateDerCertTemplate]

/-- Claim C10: the fs backend's LoadAccount returns a nil account with a
nil error both when the storage file does not exist and when it exists
with size zero — an empty file is indistinguishable from an absent
account. -/
theorem LoadAccount_absent_eq_empty (readFile : Except String (List Nat))
    (unmarshal : List Nat → Except String Account) :
    LoadAccount StatResult.notExist readFile unmarshal = Except.ok none ∧
    LoadAccount (StatResult.found 0) readFile unmarshal = Except.ok none :=
  ⟨rfl, rfl⟩

/-- Counterexample to claim C1 as stated: calling AddCertificate with
bytes that fail the key-pair parse updates the `Certificate` field and
returns an error, but `TLSCert` keeps its previous value, so the
derived TLS object is no longer the parse of the current raw bytes. -/
theorem AddCertificate_diverges_on_parse_failure :
    (AddCertificate sampleKeyPair dcGood certBad dcGood.Domain).1.Certificate
      = certBad ∧
    (AddCertificate sampleKeyPair dcGood certBad dcGood.Domain).1.TLSCert
      = some ⟨[[1]]⟩ ∧
    sampleKeyPair certBad.Cert certBad.PrivateKey =
      Except.error ("tls: failed to find any PEM data in certificate input") ∧
    (AddCertificate sampleKeyPair dcGood certBad dcGood.Domain).2 ≠ none := by
  refine ⟨rfl, rfl, rfl, ?_⟩
  decide

/-- Claim C1 amended: after Init, AddCertificate, or a domain-matching
RenewCertificate that returns no error, `TLSCert` is exactly the
successful parse of the current `Certificate` bytes; when the bytes
fail to parse, the operation returns an error, the `Certificate` field
already holds the new bytes (for AddCertificate and RenewCertificate),
and `TLSCert` keeps its previous value — so the two can diverge on the
error path. -/
theorem domainCertificate_tls_consistency
    (kp : List Nat → List Nat → Except String TLSCertificate)
    (dc : DomainCertificate) (cert : GoACME.Certificate)
    (d : GoACME.Domain) :
    ((Init kp dc).2 = none →
      ∃ t, kp dc.Certificate.Cert dc.Certificate.PrivateKey = Except.ok t ∧
        (Init kp dc).1.TLSCert = some t) ∧
    ((Init kp dc).2 ≠ none → (Init kp dc).1 = dc) ∧
    ((AddCertificate kp dc cert d).2 = none →
      ∃ t, kp cert.Cert cert.PrivateKey = Except.ok t ∧
        (AddCertificate kp dc cert d).1.TLSCert = some t) ∧
    ((AddCertificate kp dc cert d).2 ≠ none →
      (AddCertificate kp dc cert d).1.Certificate = cert ∧
      (AddCertificate kp dc cert d).1.TLSCert = dc.TLSCert) ∧
    (d = dc.Domain → (RenewCertificate kp dc cert d).2 = none →
      ∃ t, kp cert.Cert cert.PrivateKey = Except.ok t ∧
        (RenewCertificate kp dc cert d).1.TLSCert = some t) ∧
    (d = dc.Domain → (RenewCertificate kp dc cert d).2 ≠ none →
      (RenewCertificate kp dc cert d).1.Certificate = cert ∧
      (RenewCertificate kp dc cert d).1.TLSCert = dc.TLSCert) := by
  have hInit := Init_cases kp dc
  have hAdd := Init_cases kp { dc with Domain := d, Certificate := cert }
  have hRen := Init_cases kp { dc with Certificate := cert }
  refine ⟨?_, hInit.2, ?_, ?_, ?_, ?_⟩
  · intro h
    obtain ⟨t, h1, h2⟩ := hInit.1 h
    exact ⟨t, h1, by rw [h2]⟩
  · intro h
    obtain ⟨t, h1, h2⟩ := hAdd.1 h
    exact ⟨t, h1, by rw [show AddCertificate kp dc cert d =
      Init kp { dc with Domain := d, Certificate := cert } from rfl, h2]⟩
  · intro h
    have h2 := hAdd.2 h
    rw [show AddCertificate kp dc cert d =
      Init kp { dc with Domain := d, Certificate := cert } from rfl, h2]
    exact ⟨rfl, rfl⟩
  · intro hd h
    rw [show RenewCertificate kp dc cert d =
      Init kp { dc with Certificate := cert } from by
        unfold RenewCertificate; rw [if_pos hd]] at h ⊢
    obtain ⟨t, h1, h2⟩ := hRen.1 h
    exact ⟨t, h1, by rw [h2]⟩
  · intro hd h
    rw [show RenewCertificate kp dc cert d =
      Init kp { dc with Certificate := cert } from by
        unfold RenewCertificate; rw [if_pos hd]] at h ⊢
    rw [hRen.2 h]
    exact ⟨rfl, rfl⟩

/-- Witness for C1 (amended) at concrete inputs: AddCertificate with
parsable bytes leaves `TLSCert` equal to the parse of those bytes. -/
theorem domainCertificate_tls_consistency_witness :
    ∃ t, sampleKeyPair certNew.Cert certNew.PrivateKey = Except.ok t ∧
      (AddCertificate sampleKeyPair dcGood certNew dcGood.Domain).1.TLSCert
        = some t :=
  (domainCertificate_tls_consistency sampleKeyPair dcGood certNew
    dcGood.Domain).2.2.1 (by decide)

/-- Counterexample to claim C4 as stated: RenewCertificate called with a
certificate whose own Domain string ("evil.com") differs from the
DomainCertificate's Domain ("example.com") nevertheless succeeds with
no error and replaces the stored certificate, because only the separate
domain argument is compared. -/
theorem RenewCertificate_ignores_cert_domain_field :
    certOtherDomain.Domain ≠ dcGood.Domain.Main ∧
    (RenewCertificate sampleKeyPair dcGood certOtherDomain dcGood.Domain).2
      = none ∧
    (RenewCertificate sampleKeyPair dcGood certOtherDomain
      dcGood.Domain).1.Certificate = certOtherDomain := by
  refine ⟨by decide, rfl, rfl⟩

/-- Claim C4 amended: RenewCertificate compares only its `domain`
argument against the DomainCertificate's Domain; when the argument
differs it returns the mismatch error and leaves the DomainCertificate
entirely unchanged.  The Certificate argument's own Domain field is
never examined. -/
theorem RenewCertificate_domain_arg_mismatch
    (kp : List Nat → List Nat → Except String TLSCertificate)
    (dc : DomainCertificate) (cert : GoACME.Certificate)
    (d : GoACME.Domain) (h : d ≠ dc.Domain) :
    RenewCertificate kp dc cert d =
      (dc, some ("Certificate to renew not found for domain " ++ d.Main)) := by
  unfold RenewCertificate
  rw [if_neg h]

/-- Witness for C4 (amended) at concrete inputs. -/
theorem RenewCertificate_domain_arg_mismatch_witness :
    RenewCertificate sampleKeyPair dcGood certNew ⟨"b.com", []⟩ =
      (dcGood,
        some ("Certificate to renew not found for domain " ++ "b.com")) :=
  RenewCertificate_domain_arg_mismatch sampleKeyPair dcGood certNew
    ⟨"b.com", []⟩ (by decide)

/-- A renew-client oracle that always returns a resource recorded for a
different domain than `dcGood`. -/
def renewOracleEvil : CertificateResource → Except String CertificateResource :=
  fun _ => Except.ok { Domain := "evil.com", CertURL := "",
                       CertStableURL := "", PrivateKey := [6],
                       Certificate := [5] }

/-- Counterexample to claim C3 as stated: the authority's renew returns
a resource recorded for "evil.com" while the DomainCertificate records
"example.com"; renewCertificate completes with no error, one authority
call and one save, silently attaching the foreign-domain certificate. -/
theorem renewCertificate_attaches_mismatched_domain :
    dcGood.Domain.Main = "example.com" ∧
    renewCertificate sampleParse sampleKeyPair 0 renewOracleEvil none dcGood =
      RenewOutcome.done
        ⟨{ Certificate := { Domain := "evil.com", CertURL := "",
                            CertStableURL := "", PrivateKey := [6],
                            Cert := [5] },
           Domain := { Main := "example.com", SANs := [] },
           TLSCert := some ⟨[[5]]⟩ }, 1, 1, none⟩ := by
  exact ⟨rfl, by decide⟩

/-- Claim C3 amended: renewCertificate passes the DomainCertificate's
own Domain as the domain argument of RenewCertificate, so the mismatch
check always passes; whenever the client's renew succeeds and the
returned bytes parse, the renewed resource is attached regardless of
its recorded Domain string, with no error — a DomainMismatchError is
impossible on this path. -/
theorem renewCertificate_never_domain_mismatch
    (p : List Nat → Option X509Cert)
    (kp : List Nat → List Nat → Except String TLSCertificate)
    (now : Int)
    (clientRenew : CertificateResource → Except String CertificateResource)
    (save : Option String) (dc : DomainCertificate) (tlsc : TLSCertificate)
    (r : CertificateResource) (t : TLSCertificate)
    (h1 : dc.TLSCert = some tlsc)
    (h2 : needsUpdate p now tlsc = true)
    (h3 : clientRenew { Domain := dc.Certificate.Domain,
                        CertURL := dc.Certificate.CertURL,
                        CertStableURL := dc.Certificate.CertStableURL,
                        PrivateKey := dc.Certificate.PrivateKey,
                        Certificate := dc.Certificate.Cert } = Except.ok r)
    (h4 : kp r.Certificate r.PrivateKey = Except.ok t) :
    renewCertificate p kp now clientRenew save dc =
      RenewOutcome.done
        ⟨{ dc with
            Certificate := { Domain := r.Domain, CertURL := r.CertURL,
                             CertStableURL := r.CertStableURL,
                             PrivateKey := r.PrivateKey,
                             Cert := r.Certificate },
            TLSCert := some t }, 1, 1, save⟩ := by
  unfold renewCertificate
  rw [h1]
  simp only [h2, if_true]
  rw [h3]
  simp only [RenewCertificate, if_pos rfl, Init, tlsCert, if_true]
  rw [h4]
  cases save <;> rfl

/-- Witness for C3 (amended) at concrete inputs. -/
theorem renewCertificate_never_domain_mismatch_witness :
    renewCertificate sampleParse sampleKeyPair 0 renewOracleEvil none dcGood =
      RenewOutcome.done
        ⟨{ dcGood with
            Certificate := { Domain := "evil.com", CertURL := "",
                             CertStableURL := "", PrivateKey := [6],
                             Cert := [5] },
            TLSCert := some ⟨[[5]]⟩ }, 1, 1, none⟩ :=
  renewCertificate_never_domain_mismatch sampleParse sampleKeyPair 0
    renewOracleEvil none dcGood ⟨[[1]]⟩
    ⟨"evil.com", "", "", [6], [5]⟩ ⟨[[5]]⟩ rfl (by decide) rfl rfl

/-- Claim C7: when the current TLS certificate does not need renewal,
renewCertificate is a complete no-op — zero authority calls, zero
saves, state unchanged, no error — and invoking it again on the
returned state once more makes zero authority calls. -/
theorem renewCertificate_noop_when_fresh
    (p : List Nat → Option X509Cert)
    (kp : List Nat → List Nat → Except String TLSCertificate)
    (now : Int)
    (clientRenew : CertificateResource → Except String CertificateResource)
    (save : Option String) (dc : DomainCertificate) (tlsc : TLSCertificate)
    (h1 : dc.TLSCert = some tlsc)
    (h2 : needsUpdate p now tlsc = false) :
    renewCertificate p kp now clientRenew save dc =
      RenewOutcome.done ⟨dc, 0, 0, none⟩ ∧
    ∀ res, renewCertificate p kp now clientRenew save dc =
        RenewOutcome.done res →
      renewCertificate p kp now clientRenew save res.dc =
        RenewOutcome.done ⟨res.dc, 0, 0, none⟩ := by
  have hfirst : renewCertificate p kp now clientRenew save dc =
      RenewOutcome.done ⟨dc, 0, 0, none⟩ := by
    unfold renewCertificate
    rw [h1]
    simp [h2]
  refine ⟨hfirst, ?_⟩
  intro res hres
  rw [hfirst] at hres
  cases hres
  exact hfirst

/-- Witness for C7 at concrete inputs: a certificate whose single
segment expires exactly at now + 7 days is fresh, and renewal is a
no-op. -/
theorem renewCertificate_noop_when_fresh_witness :
    renewCertificate sampleParse sampleKeyPair (-sevenDaysNs)
      renewOracleEvil none dcGood = RenewOutcome.done ⟨dcGood, 0, 0, none⟩ :=
  (renewCertificate_noop_when_fresh sampleParse sampleKeyPair (-sevenDaysNs)
    renewOracleEvil none dcGood ⟨[[1]]⟩ rfl (by decide)).1

/-- Claim C8: in retrieveCertificate, when the backend save fails after
a certificate was successfully issued and attached, the call returns an
error while the in-memory DomainCertificate keeps the newly issued
certificate and its freshly derived TLS object. -/
theorem retrieveCertificate_save_failure_keeps_cert
    (kp : List Nat → List Nat → Except String TLSCertificate)
    (cert : GoACME.Certificate) (e : String) (d : GoACME.Domain)
    (dc : DomainCertificate) (t : TLSCertificate)
    (hparse : kp cert.Cert cert.PrivateKey = Except.ok t) :
    (retrieveCertificate kp (Except.ok cert) (some e) d dc).1 =
      { dc with Domain := d, Certificate := cert, TLSCert := some t } ∧
    (retrieveCertificate kp (Except.ok cert) (some e) d dc).2 =
      Except.error ("Error Saving ACME account: " ++ e) := by
  unfold retrieveCertificate AddCertificate Init tlsCert
  dsimp only
  rw [hparse]
  exact ⟨rfl, rfl⟩

/-- Witness for C8 at concrete inputs. -/
theorem retrieveCertificate_save_failure_keeps_cert_witness :
    (retrieveCertificate sampleKeyPair (Except.ok certNew)
      (some ("disk full")) dcGood.Domain dcGood).1 =
      { dcGood with Domain := dcGood.Domain, Certificate := certNew,
                    TLSCert := some ⟨[[5]]⟩ } ∧
    (retrieveCertificate sampleKeyPair (Except.ok certNew)
      (some ("disk full")) dcGood.Domain dcGood).2 =
      Except.error ("Error Saving ACME account: " ++ "disk full") :=
  retrieveCertificate_save_failure_keeps_cert sampleKeyPair certNew
    ("disk full") dcGood.Domain dcGood ⟨[[5]]⟩ rfl

/-- Trivial DNS provider factory used to instantiate the factory
oracle. -/
def trivialFactory : String → Except String Unit := fun _ => Except.ok ()

/-- Counterexample to claim C5 as stated: an unrecognized DNS provider
name makes newDNSProvider panic rather than return an error, and an
empty main domain makes CreateConfig's validation panic rather than
return an error — both failures crash instead of being reported to the
caller. -/
theorem createConfig_validation_panics_cex :
    newDNSProvider trivialFactory ("foo") =
      FnOutcome.panics ("Unknown dns provider " ++ "foo") ∧
    createConfigDomainCheck (some ⟨"", []⟩) =
      FnOutcome.panics ("The main domain name must be provided") := by
  exact ⟨by decide, rfl⟩

/-- Claim C5 amended: CreateConfig's two validation failures are
panics, not error returns: a missing or empty main domain triggers
`Logger.Panic`, and an unrecognized DNS provider name reaches the
switch default, which panics; neither failure is surfaced as an error
value to the caller. -/
theorem createConfig_validation_panics {α : Type}
    (factory : String → Except String α) (dns : String)
    (od : Option GoACME.Domain)
    (h1 : dns ∉ dnsProviderNames)
    (h2 : od = none ∨ ∃ d, od = some d ∧ d.Main = "") :
    newDNSProvider factory dns =
      FnOutcome.panics ("Unknown dns provider " ++ dns) ∧
    createConfigDomainCheck od =
      FnOutcome.panics ("The main domain name must be provided") := by
  constructor
  · simp [newDNSProvider, h1]
  · rcases h2 with h | ⟨d, hod, hm⟩
    · rw [h]
      rfl
    · rw [hod]
      simp [createConfigDomainCheck, hm]

/-- Witness for C5 (amended) at concrete inputs. -/
theorem createConfig_validation_panics_witness :
    newDNSProvider trivialFactory ("akamai") =
      FnOutcome.panics ("Unknown dns provider " ++ "akamai") ∧
    createConfigDomainCheck none =
      FnOutcome.panics ("The main domain name must be provided") :=
  createConfig_validation_panics trivialFactory ("akamai") none
    (by decide) (Or.inl rfl)

end GoACME
